import Mathlib

/-
Shallow embedding of the briefpg package (temporary PostgreSQL instances
for Go tests).  The embedded functions mirror briefpg.go and options.go:
external collaborators (filesystem stat, subprocess execution, temp-dir
creation, template rendering) are supplied by an explicit environment
record, and each operation returns the updated instance, the ordered list
of externally observable effects it issued, and its result.
-/

set_option autoImplicit false

/-- The lifecycle states of a briefpg instance, in Go declaration (iota)
order.  Go compares these as ints, which we mirror with toNat. -/
inductive BpState
  | notPresent
  | present
  | uninitialized
  | initialized
  | serverStarted
  | defunct
deriving DecidableEq

/-- Numeric value of each state, matching the Go iota constants. -/
def BpState.toNat : BpState → Nat
  | .notPresent => 0
  | .present => 1
  | .uninitialized => 2
  | .initialized => 3
  | .serverStarted => 4
  | .defunct => 5

/-- Go comparison bp.state < s (int comparison on the enum). -/
def stateLt (a b : BpState) : Bool := Nat.blt a.toNat b.toNat

/-- Go comparison bp.state >= s (int comparison on the enum). -/
def stateGe (a b : BpState) : Bool := Nat.ble b.toNat a.toNat

/-- The errors the package can return.  Go uses formatted error strings;
each constructor corresponds to one distinct fmt.Errorf site and carries
the data interpolated into the message at that site. -/
inductive BpError
  /-- findPostgres: could not find Postgres; carries the list of
  directories tried (joined into the message in Go). -/
  | notFound (tried : List String)
  /-- wrapExecErr when err is an exec.ExitError: message carries the
  operation msg, the full argument vector and the captured stderr. -/
  | execFailed (msg : String) (cmdArgs : List String) (stderr : String)
  /-- wrapExecErr when err is not an exec.ExitError (e.g. the subprocess
  could not be launched): Go returns fmt.Errorf with only msg. -/
  | launchFailed (msg : String)
  /-- Start: the instance is defunct. -/
  | defunct
  /-- CreateDB: server not started. -/
  | notRunningCreate
  /-- DumpDB: server not started. -/
  | notRunningDump
  /-- initDB: caller-supplied tmpdir not present or not readable. -/
  | notReady (tmpDir : String)
  /-- mkTemp: ioutil.TempDir failed. -/
  | mkTempFailed
  /-- initDB: the postgresql.conf template failed to parse. -/
  | templateParseFailed
  /-- initDB: opening the rendered config file failed. -/
  | confOpenFailed (path : String)
  /-- initDB: executing the template failed. -/
  | templateExecFailed
  /-- DumpDB: cmd.StdoutPipe failed (error returned raw). -/
  | pipeFailed
  /-- DumpDB: cmd.Start failed (error returned raw, unwrapped). -/
  | startRawFailed
  /-- DumpDB: io.Copy to the sink failed (error returned raw). -/
  | copyFailed
  /-- setPostgresPath: postgres path cannot be set after db initialized. -/
  | optIllegalPath
  /-- setTmpDir: tmpdir cannot be set after tmpdir has been created. -/
  | optIllegalTmpDir
  /-- setPostgresPath: running pg_ctl -V failed. -/
  | pgCtlVersionFailed
deriving DecidableEq

/-- Externally observable side effects of an operation, in issue order. -/
inductive BpEffect
  /-- A subprocess invocation with its full argument vector (cmd.Args). -/
  | exec (cmdArgs : List String)
  /-- os.RemoveAll of a directory. -/
  | removeAll (dir : String)
  /-- ioutil.TempDir attempt with the given directory name pattern. -/
  | mkTempDir (pat : String)
  /-- Opening/truncating and rendering the config file at a path. -/
  | writeFile (path : String)
  /-- Data streamed into the caller-supplied dump sink. -/
  | sinkWrite (data : String)
deriving DecidableEq

/-- Outcome of running one subprocess, as seen by the Go code. -/
inductive ExecOutcome
  /-- Launched and exited zero; carries captured output. -/
  | ok (output : String)
  /-- Launched but exited non-zero (exec.ExitError); carries stderr. -/
  | exitErr (stderr : String)
  /-- Could not be launched at all (not an exec.ExitError). -/
  | launchErr
deriving DecidableEq

/-- True for the outcomes Go reports as err != nil. -/
def ExecOutcome.failed : ExecOutcome → Bool
  | .ok _ => false
  | .exitErr _ => true
  | .launchErr => true

/-- The err argument passed to wrapExecErr. -/
inductive GoExecErr
  /-- err is an *exec.ExitError carrying captured stderr. -/
  | exitError (stderr : String)
  /-- err is any other error (e.g. launch failure). -/
  | other
deriving DecidableEq

/-- Model of wrapExecErr: for an exec.ExitError the returned error message
interpolates msg, the joined cmd.Args and the stderr; for any other error
Go returns fmt.Errorf of msg alone, dropping err. -/
def wrapExecErr (msg : String) (cmdArgs : List String) (err : GoExecErr) : BpError :=
  match err with
  | .exitError st => .execFailed msg cmdArgs st
  | .other => .launchFailed msg

/-- The external world: every OS primitive the package consumes. -/
structure BpEnv where
  /-- os.Stat succeeds on this path. -/
  statOk : String → Bool
  /-- Outcome of executing a subprocess with this argument vector. -/
  run : List String → ExecOutcome
  /-- ioutil.TempDir result: the created directory, or failure. -/
  tempDirResult : Option String
  /-- user.Current result: the username, if the call succeeds. -/
  userName : Option String
  /-- os.OpenFile of the config file succeeds. -/
  openOk : String → Bool
  /-- template.Parse succeeds on this template text. -/
  parseOk : String → Bool
  /-- tmpl.Execute into the opened config file succeeds. -/
  tmplExecOk : Bool
  /-- cmd.StdoutPipe succeeds (DumpDB). -/
  pipeOk : Bool
  /-- io.Copy of the dump stream succeeds (DumpDB). -/
  copyOk : Bool
  /-- The PATH environment variable. -/
  envPATH : String
  /-- filepath.Glob: matches for a pattern, or none when Glob errors. -/
  glob : String → Option (List String)

/-- Map from utility name to resolved path (Go cmdMap). -/
abbrev cmdMap := List (String × String)

/-- Go map lookup m[k]: the zero value "" when the key is absent. -/
def cmdGet (m : cmdMap) (k : String) : String :=
  ((m.find? (fun p => p.1 == k)).map (fun p => p.2)).getD ""

/-- filepath.Join for the simple two-component uses in this package
(no path cleaning is modelled; the package joins clean literals). -/
def filepathJoin (a b : String) : String :=
  if a = "" then b else if b = "" then a else a ++ "/" ++ b

/-- The default postgresql.conf template (DefaultPgConfTemplate). -/
def DefaultPgConfTemplate : String :=
  "\nunix_socket_directories = \x27\x7b\x7b.TmpDir\x7d\x7d\x27\nlisten_addresses = \x27\x27\nshared_buffers = 12MB\nfsync = off\nsynchronous_commit = off\nfull_page_writes = off\nlog_min_duration_statement = 0\nlog_connections = on\nlog_disconnections = on\nmax_worker_processes = 4\n"

/-- The BriefPG instance record.  The log function is represented by an
opaque sink identifier (options only ever re-assign it; no claim depends
on the sink's behaviour, only on whether the assignment happens). -/
structure BriefPG where
  /-- tmpDir field: working directory (empty until set or created). -/
  tmpDir : String
  /-- madeTmpDir: set when the tmpDir was created automatically. -/
  madeTmpDir : Bool
  /-- encoding: initdb -E argument, defaults to UNICODE. -/
  encoding : String
  /-- pgConfTemplate: the config file template text. -/
  pgConfTemplate : String
  /-- logf: identity of the configured log sink. -/
  logf : Nat
  /-- state: lifecycle state. -/
  state : BpState
  /-- pgCmds: resolved utility paths. -/
  pgCmds : cmdMap
  /-- pgVer: detected Postgres version string. -/
  pgVer : String
deriving DecidableEq

/-- Result of one operation: the updated instance, the effects issued in
order, and the Go return value. -/
structure OpResult (α : Type) where
  bp : BriefPG
  effects : List BpEffect
  res : Except BpError α

instance {ε α : Type} [DecidableEq ε] [DecidableEq α] : DecidableEq (Except ε α)
  | .ok a, .ok b => decidable_of_iff (a = b) (by simp)
  | .ok _, .error _ => .isFalse (fun h => Except.noConfusion h)
  | .error _, .ok _ => .isFalse (fun h => Except.noConfusion h)
  | .error a, .error b => decidable_of_iff (a = b) (by simp)

instance {α : Type} [DecidableEq α] : DecidableEq (OpResult α)
  | ⟨b1, e1, r1⟩, ⟨b2, e2, r2⟩ =>
    decidable_of_iff (b1 = b2 ∧ e1 = e2 ∧ r1 = r2) (by simp)

/-- The required utilities, in Go declaration order. -/
def utilities : List String := ["psql", "initdb", "pg_ctl", "pg_dump"]

/-- The well-known installation glob patterns, in Go order. -/
def tryGlobs : List String :=
  ["/usr/lib/postgresql/*/bin", "/usr/pgsql-*/bin", "/usr/local/pgsql/bin",
   "/usr/local/pgsql-*/bin", "/usr/local/bin"]

/-- The candidate directory list findPostgres builds: the sole explicit
path when non-empty, else the PATH entries followed by each glob's
matches in pattern order (a glob error contributes nothing). -/
def candidatePaths (path : String) (envPATH : String)
    (glob : String → Option (List String)) : List String :=
  if path ≠ "" then [path]
  else envPATH.splitOn ":" ++ (tryGlobs.map (fun g => (glob g).getD [])).flatten

/-- The inner loop of findPostgres over one candidate directory: stat each
utility inside it in order; on the first stat failure the directory is
abandoned (continue pathLoop), otherwise all resolved paths are kept. -/
def dirCmds (statOk : String → Bool) (dir : String) : List String → Option cmdMap
  | [] => some []
  | c :: cs =>
    let p := filepathJoin dir c
    if statOk p then
      match dirCmds statOk dir cs with
      | some rest => some ((c, p) :: rest)
      | none => none
    else none

/-- The outer loop of findPostgres: first directory holding every utility
wins (break); pgCmds stays empty when none does. -/
def findLoop (statOk : String → Bool) : List String → cmdMap
  | [] => []
  | dir :: rest =>
    match dirCmds statOk dir utilities with
    | some cmds => cmds
    | none => findLoop statOk rest

/-- findPostgres over an already-built candidate list: the first directory
containing all utilities yields the command map; an empty map means
failure, reporting the tried directories. -/
def findPostgres (statOk : String → Bool) (allPaths : List String) :
    Except BpError cmdMap :=
  let pgCmds := findLoop statOk allPaths
  if pgCmds.length = 0 then .error (.notFound allPaths) else .ok pgCmds

/-- A directory holds all required utilities as stat-able entries. -/
def hasAllUtils (statOk : String → Bool) (dir : String) : Bool :=
  utilities.all (fun c => statOk (filepathJoin dir c))

/-- The directory name pattern mkTemp passes to ioutil.TempDir: refined
with the username when user.Current succeeds with a non-empty name. -/
def mkTempPat (env : BpEnv) : String :=
  match env.userName with
  | some u => if u = "" then "briefpg." else "briefpg." ++ u ++ "."
  | none => "briefpg."

/-- mkTemp: creates the temporary working directory.  On success tmpDir is
set and madeTmpDir becomes true; on failure ioutil.TempDir returns the
empty string, which Go assigns to tmpDir. -/
def BriefPG.mkTemp (bp : BriefPG) (env : BpEnv) : OpResult Unit :=
  let pat := mkTempPat env
  match env.tempDirResult with
  | some d =>
    { bp := { bp with tmpDir := d, madeTmpDir := true },
      effects := [.mkTempDir pat], res := .ok () }
  | none =>
    { bp := { bp with tmpDir := "" },
      effects := [.mkTempDir pat], res := .error .mkTempFailed }

/-- DbDir: the versioned data directory inside the working directory. -/
def BriefPG.DbDir (bp : BriefPG) : String := filepathJoin bp.tmpDir bp.pgVer

/-- DBUri: the connection URI for a named database. -/
def BriefPG.DBUri (bp : BriefPG) (dbName : String) : String :=
  "postgresql:///" ++ dbName ++ "?host=" ++ bp.tmpDir ++ "&user=postgres"

/-- The initdb argument vector built by initDB. -/
def initdbCmdArgs (bp : BriefPG) : List String :=
  [cmdGet bp.pgCmds "initdb", "--nosync", "-U", "postgres",
   "-D", bp.DbDir, "-E", bp.encoding, "-A", "trust"]

/-- First step of initDB: materialize or validate the working directory.
A missing tmpDir is created (state transiently Present); a caller-supplied
one that fails stat sends the state to NotPresent with an error. -/
def BriefPG.ensureTmpDir (bp : BriefPG) (env : BpEnv) : OpResult Unit :=
  if bp.tmpDir = "" then
    let r := bp.mkTemp env
    match r.res with
    | .error e => { bp := r.bp, effects := r.effects, res := .error e }
    | .ok _ =>
      { bp := { r.bp with state := .present }, effects := r.effects, res := .ok () }
  else if env.statOk bp.tmpDir then
    { bp := bp, effects := [], res := .ok () }
  else
    { bp := { bp with state := .notPresent }, effects := [],
      res := .error (.notReady bp.tmpDir) }

/-- Second step of initDB: run initdb when the versioned data directory
does not already stat (reuse is allowed otherwise). -/
def BriefPG.runInitdbIfNeeded (bp : BriefPG) (env : BpEnv) : OpResult Unit :=
  if env.statOk bp.DbDir then
    { bp := bp, effects := [], res := .ok () }
  else
    let args := initdbCmdArgs bp
    match env.run args with
    | .ok _ => { bp := bp, effects := [.exec args], res := .ok () }
    | .exitErr st =>
      { bp := bp, effects := [.exec args],
        res := .error (wrapExecErr "initDB failed" args (.exitError st)) }
    | .launchErr =>
      { bp := bp, effects := [.exec args],
        res := .error (wrapExecErr "initDB failed" args .other) }

/-- Third step of initDB: parse the template, open/truncate the config
file and render the template into it; success sets state Initialized. -/
def BriefPG.writeConf (bp : BriefPG) (env : BpEnv) : OpResult Unit :=
  let confFile := filepathJoin bp.DbDir "postgresql.conf"
  if env.parseOk bp.pgConfTemplate then
    if env.openOk confFile then
      if env.tmplExecOk then
        { bp := { bp with state := .initialized },
          effects := [.writeFile confFile], res := .ok () }
      else
        { bp := bp, effects := [.writeFile confFile],
          res := .error .templateExecFailed }
    else
      { bp := bp, effects := [], res := .error (.confOpenFailed confFile) }
  else
    { bp := bp, effects := [], res := .error .templateParseFailed }

/-- initDB: the three steps in source order, short-circuiting on error and
accumulating effects. -/
def BriefPG.initDB (bp : BriefPG) (env : BpEnv) : OpResult Unit :=
  let s1 := bp.ensureTmpDir env
  match s1.res with
  | .error e => { bp := s1.bp, effects := s1.effects, res := .error e }
  | .ok _ =>
    let s2 := s1.bp.runInitdbIfNeeded env
    match s2.res with
    | .error e =>
      { bp := s2.bp, effects := s1.effects ++ s2.effects, res := .error e }
    | .ok _ =>
      let s3 := s2.bp.writeConf env
      { bp := s3.bp, effects := s1.effects ++ s2.effects ++ s3.effects,
        res := s3.res }

/-- The pg_ctl start argument vector built by Start (userOpts is the
reserved, always-empty extension point). -/
def startCmdArgs (bp : BriefPG) : List String :=
  [cmdGet bp.pgCmds "pg_ctl", "-w", "-o", "-c listen_addresses=\x27\x27 ",
   "-s", "-D", bp.DbDir, "-l", filepathJoin bp.DbDir "postgres.log", "start"]

/-- Start: fails immediately when defunct; otherwise runs initDB when the
state is below Initialized, then invokes pg_ctl start. -/
def BriefPG.Start (bp : BriefPG) (env : BpEnv) : OpResult Unit :=
  if bp.state = .defunct then
    { bp := bp, effects := [], res := .error .defunct }
  else
    let s1 : OpResult Unit :=
      if stateLt bp.state .initialized then bp.initDB env
      else { bp := bp, effects := [], res := .ok () }
    match s1.res with
    | .error e => { bp := s1.bp, effects := s1.effects, res := .error e }
    | .ok _ =>
      let bp1 := s1.bp
      let args := startCmdArgs bp1
      match env.run args with
      | .ok _ =>
        { bp := { bp1 with state := .serverStarted },
          effects := s1.effects ++ [.exec args], res := .ok () }
      | .exitErr st =>
        { bp := bp1, effects := s1.effects ++ [.exec args],
          res := .error (wrapExecErr "Start failed" args (.exitError st)) }
      | .launchErr =>
        { bp := bp1, effects := s1.effects ++ [.exec args],
          res := .error (wrapExecErr "Start failed" args .other) }

/-- The psql argument vector built by CreateDB. -/
def createCmdArgs (bp : BriefPG) (dbName createArgs : String) : List String :=
  [cmdGet bp.pgCmds "psql", "-c",
   "CREATE DATABASE \"" ++ dbName ++ "\" " ++ createArgs, bp.DBUri "postgres"]

/-- CreateDB: requires state at least ServerStarted, then runs psql with a
CREATE DATABASE statement and returns the new database URI. -/
def BriefPG.CreateDB (bp : BriefPG) (dbName createArgs : String) (env : BpEnv) :
    OpResult String :=
  if stateLt bp.state .serverStarted then
    { bp := bp, effects := [], res := .error .notRunningCreate }
  else
    let args := createCmdArgs bp dbName createArgs
    match env.run args with
    | .ok _ => { bp := bp, effects := [.exec args], res := .ok (bp.DBUri dbName) }
    | .exitErr st =>
      { bp := bp, effects := [.exec args],
        res := .error (wrapExecErr "CreateDB failed" args (.exitError st)) }
    | .launchErr =>
      { bp := bp, effects := [.exec args],
        res := .error (wrapExecErr "CreateDB failed" args .other) }

/-- The pg_dump argument vector built by DumpDB. -/
def dumpCmdArgs (bp : BriefPG) (dbName : String) : List String :=
  [cmdGet bp.pgCmds "pg_dump", bp.DBUri dbName]

/-- DumpDB: requires state at least ServerStarted, then streams pg_dump
output into the sink; pipe, launch and copy failures return raw errors
while a non-zero exit is wrapped after the copy. -/
def BriefPG.DumpDB (bp : BriefPG) (dbName : String) (env : BpEnv) : OpResult Unit :=
  if stateLt bp.state .serverStarted then
    { bp := bp, effects := [], res := .error .notRunningDump }
  else
    let args := dumpCmdArgs bp dbName
    if env.pipeOk then
      match env.run args with
      | .launchErr => { bp := bp, effects := [.exec args], res := .error .startRawFailed }
      | .ok out =>
        if env.copyOk then
          { bp := bp, effects := [.exec args, .sinkWrite out], res := .ok () }
        else
          { bp := bp, effects := [.exec args], res := .error .copyFailed }
      | .exitErr st =>
        if env.copyOk then
          { bp := bp, effects := [.exec args],
            res := .error (wrapExecErr "DumpDB failed" args (.exitError st)) }
        else
          { bp := bp, effects := [.exec args], res := .error .copyFailed }
    else
      { bp := bp, effects := [], res := .error .pipeFailed }

/-- The pg_ctl stop argument vector built by Fini. -/
def stopCmdArgs (bp : BriefPG) : List String :=
  [cmdGet bp.pgCmds "pg_ctl", "-m", "immediate", "-w", "-D", bp.DbDir, "stop"]

/-- Fini: when state is at least ServerStarted (Defunct included), issues
an immediate-mode stop and returns its wrapped error early on failure
(without reaching the cleanup or the state assignment); otherwise removes
the working directory when state is at least Present and the directory
was auto-created, and finally sets state Defunct. -/
def BriefPG.Fini (bp : BriefPG) (env : BpEnv) : OpResult Unit :=
  let s1 : OpResult Unit :=
    if stateGe bp.state .serverStarted then
      let args := stopCmdArgs bp
      match env.run args with
      | .ok _ => { bp := bp, effects := [.exec args], res := .ok () }
      | .exitErr st =>
        { bp := bp, effects := [.exec args],
          res := .error (wrapExecErr "Fini failed" args (.exitError st)) }
      | .launchErr =>
        { bp := bp, effects := [.exec args],
          res := .error (wrapExecErr "Fini failed" args .other) }
    else { bp := bp, effects := [], res := .ok () }
  match s1.res with
  | .error e => { bp := s1.bp, effects := s1.effects, res := .error e }
  | .ok _ =>
    let rm : List BpEffect :=
      if stateGe bp.state .present && bp.madeTmpDir then [.removeAll bp.tmpDir]
      else []
    { bp := { bp with state := .defunct }, effects := s1.effects ++ rm,
      res := .ok () }

/-- setPostgresEncoding: assigns the encoding unconditionally (the Go
setter performs no state check). -/
def BriefPG.setPostgresEncoding (bp : BriefPG) (enc : String) :
    BriefPG × Except BpError Unit :=
  ({ bp with encoding := enc }, .ok ())

/-- setTmpDir: refuses only when the controller already created a tmpDir;
otherwise assigns the caller-supplied directory. -/
def BriefPG.setTmpDir (bp : BriefPG) (dir : String) :
    BriefPG × Except BpError Unit :=
  if bp.madeTmpDir then (bp, .error .optIllegalTmpDir)
  else ({ bp with tmpDir := dir }, .ok ())

/-- The closure OptLogFunc applies: assigns the log sink unconditionally
(no state check in the Go code). -/
def BriefPG.applyOptLogFunc (bp : BriefPG) (sink : Nat) :
    BriefPG × Except BpError Unit :=
  ({ bp with logf := sink }, .ok ())

/-- Version token extraction in setPostgresPath: the last space-separated
field of the trimmed command output. -/
def versionFrom (out : String) : String :=
  (out.trim.splitOn " ").getLastD ""

/-- setPostgresPath: guarded by state below Initialized; resolves the
command map (pgCmds becomes nil on a failed search, as in Go) and then
harvests the version via pg_ctl -V. -/
def BriefPG.setPostgresPath (bp : BriefPG) (pgPath : String) (env : BpEnv) :
    BriefPG × Except BpError Unit :=
  if stateGe bp.state .initialized then (bp, .error .optIllegalPath)
  else
    match findPostgres env.statOk (candidatePaths pgPath env.envPATH env.glob) with
    | .error e => ({ bp with pgCmds := [] }, .error e)
    | .ok cmds =>
      let bp1 := { bp with pgCmds := cmds }
      match env.run [cmdGet cmds "pg_ctl", "-V"] with
      | .ok out => ({ bp1 with pgVer := versionFrom out }, .ok ())
      | .exitErr _ => (bp1, .error .pgCtlVersionFailed)
      | .launchErr => (bp1, .error .pgCtlVersionFailed)

/-- An effect list contains at least one subprocess invocation. -/
def hasExec (effs : List BpEffect) : Bool :=
  effs.any (fun e => match e with | .exec _ => true | _ => false)

/-- An effect list contains at least one recursive directory removal. -/
def hasRemove (effs : List BpEffect) : Bool :=
  effs.any (fun e => match e with | .removeAll _ => true | _ => false)

/-- The controller-side fast-fail errors (state checks), as opposed to
errors that originate in an external command or its streams. -/
def isFastFail : BpError → Bool
  | .defunct => true
  | .notRunningCreate => true
  | .notRunningDump => true
  | .notReady _ => true
  | _ => false

/-- A result is a controller-side fast-fail error. -/
def resFastFail {α : Type} (r : Except BpError α) : Bool :=
  match r with
  | .error e => isFastFail e
  | .ok _ => false

/-- A result is an error. -/
def resIsErr {α : Type} (r : Except BpError α) : Bool :=
  match r with
  | .error _ => true
  | .ok _ => false

/-! Concrete fixtures used by counterexamples and witnesses. -/

/-- A fully resolved command map rooted at /pg. -/
def pgCmds0 : cmdMap :=
  [("psql", "/pg/psql"), ("initdb", "/pg/initdb"),
   ("pg_ctl", "/pg/pg_ctl"), ("pg_dump", "/pg/pg_dump")]

/-- A started instance whose working directory was auto-created. -/
def bpStarted : BriefPG :=
  { tmpDir := "/tmp/bp", madeTmpDir := true, encoding := "UNICODE",
    pgConfTemplate := DefaultPgConfTemplate, logf := 0,
    state := .serverStarted, pgCmds := pgCmds0, pgVer := "12.3" }

/-- The same instance after teardown. -/
def bpDefunct : BriefPG := { bpStarted with state := .defunct }

/-- A freshly configured instance (no working directory yet). -/
def bpUninit : BriefPG :=
  { bpStarted with state := .uninitialized, madeTmpDir := false, tmpDir := "" }

/-- A started instance whose working directory is caller-supplied. -/
def bpCaller : BriefPG := { bpStarted with madeTmpDir := false }

/-- An instance that has completed initialization. -/
def bpInitialized : BriefPG := { bpStarted with state := .initialized }

/-- A fresh instance configured with a bogus caller-supplied tmpDir. -/
def bpBogusDir : BriefPG := { bpUninit with tmpDir := "/some/bogus/path" }

/-- A benign environment: everything exists and every command succeeds. -/
def envOk : BpEnv :=
  { statOk := fun _ => true, run := fun _ => .ok "", tempDirResult := some "/tmp/auto",
    userName := none, openOk := fun _ => true, parseOk := fun _ => true,
    tmplExecOk := true, pipeOk := true, copyOk := true, envPATH := "",
    glob := fun _ => none }

/-- Like envOk but every subprocess exits non-zero with stderr boom. -/
def envStopFail : BpEnv := { envOk with run := fun _ => .exitErr "boom" }

/-- Like envOk but no path stats successfully. -/
def envNoDir : BpEnv := { envOk with statOk := fun _ => false }

/-- Claim C2: for every instance in the Defunct state, Start fails with the
defunct error, leaves the instance unchanged and issues no effects (no
initialization, no subprocess invocation). -/
theorem start_after_defunct_fails (bp : BriefPG) (env : BpEnv)
    (h : bp.state = .defunct) :
    bp.Start env = { bp := bp, effects := [], res := .error .defunct } := by
  simp [BriefPG.Start, h]

/-- Witness for start_after_defunct_fails at a concrete defunct instance. -/
theorem start_after_defunct_fails_witness :
    bpDefunct.Start envOk = { bp := bpDefunct, effects := [], res := .error .defunct } :=
  start_after_defunct_fails bpDefunct envOk rfl

/-- Claim C5: for every instance whose state is strictly below
ServerStarted, CreateDB and DumpDB fail with their respective not-running
errors, leave the instance unchanged and issue zero effects. -/
theorem create_dump_before_start_fail (bp : BriefPG) (env : BpEnv)
    (dbName createArgs : String) (h : stateLt bp.state .serverStarted = true) :
    bp.CreateDB dbName createArgs env =
      { bp := bp, effects := [], res := .error .notRunningCreate } ∧
    bp.DumpDB dbName env =
      { bp := bp, effects := [], res := .error .notRunningDump } := by
  constructor
  · simp [BriefPG.CreateDB, h]
  · simp [BriefPG.DumpDB, h]

/-- Witness for create_dump_before_start_fail at a fresh instance. -/
theorem create_dump_before_start_fail_witness :
    bpUninit.CreateDB "test_db" "" envOk =
      { bp := bpUninit, effects := [], res := .error .notRunningCreate } ∧
    bpUninit.DumpDB "test_db" envOk =
      { bp := bpUninit, effects := [], res := .error .notRunningDump } :=
  create_dump_before_start_fail bpUninit envOk "test_db" "" rfl

/-- Claim C6: in the Defunct state CreateDB and DumpDB pass the not-running
check (Defunct = 5 is at least ServerStarted = 4), issue a subprocess
invocation, and any resulting error is never a controller-side fast-fail. -/
theorem defunct_passes_notrunning_check (bp : BriefPG) (env : BpEnv)
    (dbName createArgs : String) (h : bp.state = .defunct)
    (hp : env.pipeOk = true) :
    hasExec (bp.CreateDB dbName createArgs env).effects = true ∧
    resFastFail (bp.CreateDB dbName createArgs env).res = false ∧
    hasExec (bp.DumpDB dbName env).effects = true ∧
    resFastFail (bp.DumpDB dbName env).res = false := by
  have hlt : stateLt bp.state .serverStarted = false := by rw [h]; rfl
  refine ⟨?_, ?_, ?_, ?_⟩
  · cases hr : env.run (createCmdArgs bp dbName createArgs) <;>
      simp [BriefPG.CreateDB, hlt, hr, hasExec]
  · cases hr : env.run (createCmdArgs bp dbName createArgs) <;>
      simp [BriefPG.CreateDB, hlt, hr, resFastFail, isFastFail, wrapExecErr]
  · cases hr : env.run (dumpCmdArgs bp dbName) <;> cases hc : env.copyOk <;>
      simp [BriefPG.DumpDB, hlt, hp, hr, hc, hasExec]
  · cases hr : env.run (dumpCmdArgs bp dbName) <;> cases hc : env.copyOk <;>
      simp [BriefPG.DumpDB, hlt, hp, hr, hc, resFastFail, isFastFail, wrapExecErr]

/-- Witness for defunct_passes_notrunning_check after a teardown. -/
theorem defunct_passes_notrunning_check_witness :
    hasExec (bpDefunct.CreateDB "test_db" "" envOk).effects = true ∧
    resFastFail (bpDefunct.DumpDB "test_db" envOk).res = false :=
  ⟨(defunct_passes_notrunning_check bpDefunct envOk "test_db" "" rfl rfl).1,
   (defunct_passes_notrunning_check bpDefunct envOk "test_db" "" rfl rfl).2.2.2⟩

/-- Claim C8: with a caller-supplied working directory that fails stat,
initDB fails with the not-ready error, sends the state to NotPresent and
issues no effects; Start (from any non-defunct state below Initialized)
surfaces the same failure with no subprocess invocation. -/
theorem start_bad_tmpdir_notReady (bp : BriefPG) (env : BpEnv)
    (hne : bp.tmpDir ≠ "") (hstat : env.statOk bp.tmpDir = false)
    (hnd : bp.state ≠ .defunct) (hlt : stateLt bp.state .initialized = true) :
    bp.initDB env =
      { bp := { bp with state := .notPresent }, effects := [],
        res := .error (.notReady bp.tmpDir) } ∧
    bp.Start env =
      { bp := { bp with state := .notPresent }, effects := [],
        res := .error (.notReady bp.tmpDir) } := by
  have h1 : bp.ensureTmpDir env =
      { bp := { bp with state := .notPresent }, effects := [],
        res := .error (.notReady bp.tmpDir) } := by
    simp [BriefPG.ensureTmpDir, hne, hstat]
  have h2 : bp.initDB env =
      { bp := { bp with state := .notPresent }, effects := [],
        res := .error (.notReady bp.tmpDir) } := by
    simp [BriefPG.initDB, h1]
  refine ⟨h2, ?_⟩
  simp [BriefPG.Start, hnd, hlt, h2]

/-- Witness for start_bad_tmpdir_notReady at a bogus override. -/
theorem start_bad_tmpdir_notReady_witness :
    bpBogusDir.Start envNoDir =
      { bp := { bpBogusDir with state := .notPresent }, effects := [],
        res := .error (.notReady "/some/bogus/path") } := by
  have h := (start_bad_tmpdir_notReady bpBogusDir envNoDir (by decide) rfl
    (by decide) rfl).2
  exact h

/-- Claim C10: DBUri is pure and stateless, returning exactly the
postgresql URI built from the database name, the working directory and the
fixed postgres user; it depends on no other instance state. -/
theorem dburi_pure (bp : BriefPG) (dbName : String) :
    bp.DBUri dbName =
      "postgresql:///" ++ dbName ++ "?host=" ++ bp.tmpDir ++ "&user=postgres" ∧
    ∀ bp2 : BriefPG, bp2.tmpDir = bp.tmpDir → bp2.DBUri dbName = bp.DBUri dbName := by
  refine ⟨rfl, ?_⟩
  intro bp2 h
  simp [BriefPG.DBUri, h]

/-- Witness for dburi_pure on a concrete name, including state-independence
between a started and a defunct instance. -/
theorem dburi_pure_witness :
    bpStarted.DBUri "mydb" = "postgresql:///mydb?host=/tmp/bp&user=postgres" ∧
    bpDefunct.DBUri "mydb" = bpStarted.DBUri "mydb" := by
  exact ⟨(dburi_pure bpStarted "mydb").1, (dburi_pure bpStarted "mydb").2 bpDefunct rfl⟩

/-- dirCmds resolves every utility when all of them stat inside dir. -/
theorem dirCmds_of_all_true (statOk : String → Bool) (dir : String) :
    ∀ us : List String, us.all (fun c => statOk (filepathJoin dir c)) = true →
      dirCmds statOk dir us = some (us.map (fun c => (c, filepathJoin dir c)))
  | [], _ => rfl
  | c :: cs, h => by
    rw [List.all_cons, Bool.and_eq_true] at h
    simp [dirCmds, h.1, dirCmds_of_all_true statOk dir cs h.2]

/-- dirCmds abandons a directory as soon as one utility is missing. -/
theorem dirCmds_of_all_false (statOk : String → Bool) (dir : String) :
    ∀ us : List String, us.all (fun c => statOk (filepathJoin dir c)) = false →
      dirCmds statOk dir us = none
  | [], h => by simp at h
  | c :: cs, h => by
    cases hc : statOk (filepathJoin dir c) with
    | true =>
      rw [List.all_cons, hc, Bool.true_and] at h
      simp [dirCmds, hc, dirCmds_of_all_false statOk dir cs h]
    | false => simp [dirCmds, hc]

/-- A candidate directory missing a utility is skipped by findLoop. -/
theorem findLoop_cons_miss (statOk : String → Bool) (dir : String)
    (rest : List String) (h : hasAllUtils statOk dir = false) :
    findLoop statOk (dir :: rest) = findLoop statOk rest := by
  rw [hasAllUtils] at h
  simp [findLoop, dirCmds_of_all_false statOk dir utilities h]

/-- A candidate directory holding every utility wins in findLoop. -/
theorem findLoop_cons_hit (statOk : String → Bool) (dir : String)
    (rest : List String) (h : hasAllUtils statOk dir = true) :
    findLoop statOk (dir :: rest) = utilities.map (fun c => (c, filepathJoin dir c)) := by
  rw [hasAllUtils] at h
  simp [findLoop, dirCmds_of_all_true statOk dir utilities h]

/-- findLoop ignores any prefix of candidates that lack a utility. -/
theorem findLoop_skip (statOk : String → Bool) :
    ∀ pre rest : List String, (∀ x ∈ pre, hasAllUtils statOk x = false) →
      findLoop statOk (pre ++ rest) = findLoop statOk rest := by
  intro pre
  induction pre with
  | nil => intro rest _; rfl
  | cons d ds ih =>
    intro rest h
    have hd : hasAllUtils statOk d = false := h d (List.mem_cons_self d ds)
    rw [List.cons_append, findLoop_cons_miss statOk d (ds ++ rest) hd]
    exact ih rest (fun x hx => h x (List.mem_cons_of_mem d hx))

/-- Claim C3: the first candidate directory containing all four utilities
yields the complete command map, regardless of what follows it (no later
candidate and no other directory contributes); when no candidate has the
full set, findPostgres fails with the not-found error naming every
directory tried. -/
theorem findPostgres_first_full_dir (statOk : String → Bool) :
    (∀ (pre : List String) (dir : String) (rest : List String),
      (∀ x ∈ pre, hasAllUtils statOk x = false) →
      hasAllUtils statOk dir = true →
      findPostgres statOk (pre ++ dir :: rest) =
        .ok (utilities.map (fun c => (c, filepathJoin dir c)))) ∧
    (∀ allPaths : List String, (∀ x ∈ allPaths, hasAllUtils statOk x = false) →
      findPostgres statOk allPaths = .error (.notFound allPaths)) := by
  constructor
  · intro pre dir rest hpre hdir
    unfold findPostgres
    rw [findLoop_skip statOk pre (dir :: rest) hpre,
      findLoop_cons_hit statOk dir rest hdir]
    rfl
  · intro allPaths hall
    unfold findPostgres
    have hnil : findLoop statOk allPaths = [] := by
      have h := findLoop_skip statOk allPaths [] hall
      simpa using h
    rw [hnil]
    rfl

/-- A filesystem where only the four /pg utilities exist. -/
def statOnlyPg : String → Bool :=
  fun p => (["/pg/psql", "/pg/initdb", "/pg/pg_ctl", "/pg/pg_dump"]).contains p

/-- Witness for findPostgres_first_full_dir: /pg wins after an empty
candidate, and a list of only empty candidates fails with not-found. -/
theorem findPostgres_first_full_dir_witness :
    findPostgres statOnlyPg ["/empty", "/pg", "/other"] =
      .ok [("psql", "/pg/psql"), ("initdb", "/pg/initdb"),
           ("pg_ctl", "/pg/pg_ctl"), ("pg_dump", "/pg/pg_dump")] ∧
    findPostgres statOnlyPg ["/empty"] = .error (.notFound ["/empty"]) := by
  constructor
  · exact (findPostgres_first_full_dir statOnlyPg).1 ["/empty"] "/pg" ["/other"]
      (by decide) (by decide)
  · exact (findPostgres_first_full_dir statOnlyPg).2 ["/empty"] (by decide)

/-- Claim C9: a non-zero exit is wrapped into an error carrying the
operation name, the full argument vector and the captured stderr; any
other execution failure is reported with a distinct shape; and an external
command failure in CreateDB, Fini or Start always surfaces as an error
(never silently swallowed). -/
theorem exec_error_wrapping :
    (∀ msg cmdArgs stderr,
      wrapExecErr msg cmdArgs (.exitError stderr) = .execFailed msg cmdArgs stderr) ∧
    (∀ msg cmdArgs, wrapExecErr msg cmdArgs .other = .launchFailed msg) ∧
    (∀ m1 a s m2, BpError.execFailed m1 a s ≠ BpError.launchFailed m2) ∧
    (∀ (bp : BriefPG) (env : BpEnv) (dbName createArgs stderr : String),
      stateLt bp.state .serverStarted = false →
      env.run (createCmdArgs bp dbName createArgs) = .exitErr stderr →
      (bp.CreateDB dbName createArgs env).res =
        .error (.execFailed "CreateDB failed"
          (createCmdArgs bp dbName createArgs) stderr)) ∧
    (∀ (bp : BriefPG) (env : BpEnv) (stderr : String),
      stateGe bp.state .serverStarted = true →
      env.run (stopCmdArgs bp) = .exitErr stderr →
      (bp.Fini env).res =
        .error (.execFailed "Fini failed" (stopCmdArgs bp) stderr)) ∧
    (∀ (bp : BriefPG) (env : BpEnv),
      bp.state = .initialized →
      (env.run (startCmdArgs bp)).failed = true →
      resIsErr (bp.Start env).res = true) := by
  refine ⟨fun _ _ _ => rfl, fun _ _ => rfl, ?_, ?_, ?_, ?_⟩
  · intro m1 a s m2 h
    exact BpError.noConfusion h
  · intro bp env d c s hlt hr
    simp [BriefPG.CreateDB, hlt, hr, wrapExecErr]
  · intro bp env s hge hr
    simp [BriefPG.Fini, hge, hr, wrapExecErr]
  · intro bp env hst hr
    have hnd : bp.state ≠ .defunct := by rw [hst]; exact fun hc => BpState.noConfusion hc
    have hlt : stateLt bp.state .initialized = false := by rw [hst]; rfl
    cases hro : env.run (startCmdArgs bp) with
    | ok out =>
      rw [hro] at hr
      simp [ExecOutcome.failed] at hr
    | exitErr st => simp [BriefPG.Start, hnd, hlt, hro, resIsErr, wrapExecErr]
    | launchErr => simp [BriefPG.Start, hnd, hlt, hro, resIsErr, wrapExecErr]

/-- Witness for exec_error_wrapping: a failing stop command in Fini yields
the fully contextualized error at concrete inputs. -/
theorem exec_error_wrapping_witness :
    (bpStarted.Fini envStopFail).res =
      .error (.execFailed "Fini failed" (stopCmdArgs bpStarted) "boom") :=
  exec_error_wrapping.2.2.2.2.1 bpStarted envStopFail "boom" rfl rfl

/-- Any state at least ServerStarted is also at least Present. -/
theorem stateGe_present_of_serverStarted (a : BpState)
    (h : stateGe a .serverStarted = true) : stateGe a .present = true := by
  cases a <;> revert h <;> decide

/-- Counterexample to claim C1: with a started, auto-created instance, a
failing stop command makes Fini return early with the state still
ServerStarted (Defunct is not set unconditionally); and after a successful
Fini, a second Fini re-enters the stop branch (Defunct compares at least
ServerStarted) and issues a second external stop and a second delete
attempt. -/
theorem fini_not_idempotent_cex :
    (bpStarted.Fini envStopFail).bp.state = .serverStarted ∧
    (bpStarted.Fini envStopFail).res =
      .error (.execFailed "Fini failed" (stopCmdArgs bpStarted) "boom") ∧
    hasExec (((bpStarted.Fini envOk).bp).Fini envOk).effects = true ∧
    hasRemove (((bpStarted.Fini envOk).bp).Fini envOk).effects = true := by
  refine ⟨rfl, rfl, rfl, rfl⟩

/-- Claim C1 amended: Fini sets state Defunct exactly when it returns
without error; when the stop command fails the error is returned early and
the instance is left unchanged (still startable in principle); and on an
already-defunct instance Fini re-issues the external stop command as its
first effect, so a second call is not effect-free. -/
theorem fini_contract (bp : BriefPG) (env : BpEnv) :
    ((bp.Fini env).res = .ok () → (bp.Fini env).bp.state = .defunct) ∧
    (stateGe bp.state .serverStarted = true →
      (env.run (stopCmdArgs bp)).failed = true →
      (bp.Fini env).bp = bp ∧ resIsErr (bp.Fini env).res = true) ∧
    (bp.state = .defunct →
      (bp.Fini env).effects.head? = some (.exec (stopCmdArgs bp))) := by
  cases hge : stateGe bp.state .serverStarted with
  | true =>
    cases hro : env.run (stopCmdArgs bp) with
    | ok out =>
      refine ⟨fun _ => ?_, fun _ hf => ?_, fun _ => ?_⟩
      · simp [BriefPG.Fini, hge, hro]
      · simp [ExecOutcome.failed] at hf
      · simp [BriefPG.Fini, hge, hro]
    | exitErr st =>
      refine ⟨fun hok => ?_, fun _ _ => ?_, fun _ => ?_⟩
      · simp [BriefPG.Fini, hge, hro] at hok
      · constructor
        · simp [BriefPG.Fini, hge, hro]
        · simp [BriefPG.Fini, hge, hro, resIsErr]
      · simp [BriefPG.Fini, hge, hro]
    | launchErr =>
      refine ⟨fun hok => ?_, fun _ _ => ?_, fun _ => ?_⟩
      · simp [BriefPG.Fini, hge, hro] at hok
      · constructor
        · simp [BriefPG.Fini, hge, hro]
        · simp [BriefPG.Fini, hge, hro, resIsErr]
      · simp [BriefPG.Fini, hge, hro]
  | false =>
    refine ⟨fun _ => ?_, fun hg _ => ?_, fun hd => ?_⟩
    · simp [BriefPG.Fini, hge]
    · exact Bool.noConfusion hg
    · rw [hd] at hge
      exact absurd hge (by decide)

/-- Witness for fini_contract: a clean Fini ends Defunct, and a failing
stop leaves the started instance unchanged with an error. -/
theorem fini_contract_witness :
    (bpStarted.Fini envOk).bp.state = .defunct ∧
    ((bpStarted.Fini envStopFail).bp = bpStarted ∧
      resIsErr (bpStarted.Fini envStopFail).res = true) :=
  ⟨(fini_contract bpStarted envOk).1 rfl,
   (fini_contract bpStarted envStopFail).2.1 rfl rfl⟩

/-- Counterexample to claim C4: an auto-created working directory is not
deleted whenever it was created — with the instance started and the stop
command failing, Fini returns early and issues no directory removal even
though madeTmpDir is true. -/
theorem fini_skips_remove_cex :
    bpStarted.madeTmpDir = true ∧
    hasRemove (bpStarted.Fini envStopFail).effects = false := by
  exact ⟨rfl, rfl⟩

/-- Claim C4 amended: Fini never removes a caller-supplied working
directory (removal requires madeTmpDir); it removes the auto-created
directory exactly when the state is at least Present and the stop command,
when one is issued, succeeded — a failing stop returns early without the
removal. -/
theorem fini_remove_characterization (bp : BriefPG) (env : BpEnv) :
    (bp.madeTmpDir = false → hasRemove (bp.Fini env).effects = false) ∧
    (hasRemove (bp.Fini env).effects = true ↔
      (bp.madeTmpDir = true ∧ stateGe bp.state .present = true ∧
       (stateGe bp.state .serverStarted = true →
         (env.run (stopCmdArgs bp)).failed = false))) := by
  cases hge : stateGe bp.state .serverStarted with
  | true =>
    have hp : stateGe bp.state .present = true :=
      stateGe_present_of_serverStarted bp.state hge
    cases hro : env.run (stopCmdArgs bp) with
    | ok out =>
      cases hm : bp.madeTmpDir <;>
        simp [BriefPG.Fini, hge, hro, hp, hm, hasRemove, ExecOutcome.failed]
    | exitErr st =>
      simp [BriefPG.Fini, hge, hro, hp, hasRemove, ExecOutcome.failed]
    | launchErr =>
      simp [BriefPG.Fini, hge, hro, hp, hasRemove, ExecOutcome.failed]
  | false =>
    cases hm : bp.madeTmpDir <;> cases hp : stateGe bp.state .present <;>
      simp [BriefPG.Fini, hge, hm, hp, hasRemove, ExecOutcome.failed]

/-- Witness for fini_remove_characterization: a caller-supplied directory
survives a clean teardown, and the auto-created one is removed. -/
theorem fini_remove_characterization_witness :
    hasRemove (bpCaller.Fini envOk).effects = false ∧
    hasRemove (bpStarted.Fini envOk).effects = true :=
  ⟨(fini_remove_characterization bpCaller envOk).1 rfl,
   (fini_remove_characterization bpStarted envOk).2.mpr ⟨rfl, rfl, fun _ => rfl⟩⟩

/-- Counterexample to claim C7: on an instance already Initialized, the
encoding option applies successfully and changes the setting, and the log
sink option applies successfully and changes the sink — neither setter
performs a state check. -/
theorem encoding_mutable_after_init_cex :
    stateGe bpInitialized.state .initialized = true ∧
    (bpInitialized.setPostgresEncoding "LATIN1").2 = .ok () ∧
    (bpInitialized.setPostgresEncoding "LATIN1").1.encoding = "LATIN1" ∧
    (bpInitialized.applyOptLogFunc 7).2 = .ok () ∧
    (bpInitialized.applyOptLogFunc 7).1.logf = 7 := by
  refine ⟨rfl, rfl, rfl, rfl, rfl⟩

/-- Claim C7 amended: the encoding and log-sink setters apply
unconditionally in every state and mutate the setting; only the postgres
path option is guarded by the lifecycle, failing once the state is at
least Initialized (and no config-template option exists at all). -/
theorem options_guard_characterization (bp : BriefPG) (enc : String)
    (sink : Nat) (pgPath : String) (env : BpEnv) :
    bp.setPostgresEncoding enc = ({ bp with encoding := enc }, .ok ()) ∧
    bp.applyOptLogFunc sink = ({ bp with logf := sink }, .ok ()) ∧
    (stateGe bp.state .initialized = true →
      bp.setPostgresPath pgPath env = (bp, .error .optIllegalPath)) := by
  refine ⟨rfl, rfl, fun h => ?_⟩
  simp [BriefPG.setPostgresPath, h]

/-- Witness for options_guard_characterization at an initialized
instance. -/
theorem options_guard_characterization_witness :
    bpInitialized.setPostgresPath "/x" envOk = (bpInitialized, .error .optIllegalPath) :=
  (options_guard_characterization bpInitialized "E2" 3 "/x" envOk).2.2 rfl
